import Mathlib

/-
Verification of the core of sammy (src/sammy/sammy.py), a CLI tool managing
SJSU-Dev2 firmware project workspaces.  The Python source is shallowly
embedded: absolute filesystem paths are lists of path components (the empty
list is the filesystem root), the directory tree is an abstract listing
function, and external processes (git, the compiler toolchain, the shell) are
oracles passed in as function parameters.  Each claim theorem is stated over
these embedded definitions.
-/

namespace Sammy

/--
Abstract view of the filesystem as seen by FileUpsearch: which paths are
directories, and the immediate children (os.listdir) of each directory.
Paths are absolute, represented as their list of components from the root.
-/
structure FS where
  isDir : List String → Bool
  children : List String → List String

/--
Predicate: `isUnder q d` means directory `q` is an ancestor of `d`
(inclusive): `d` lies at or below `q` in the directory tree.
-/
def isUnder (q d : List String) : Prop := ∃ t, q ++ t = d

theorem isUnder_refl (l : List String) : isUnder l l := ⟨[], List.append_nil l⟩

theorem isUnder_trans {a b c : List String} (h1 : isUnder a b) (h2 : isUnder b c) :
    isUnder a c := by
  obtain ⟨t, ht⟩ := h1
  obtain ⟨u, hu⟩ := h2
  exact ⟨t ++ u, by rw [← List.append_assoc, ht, hu]⟩

theorem dropLast_isUnder {l : List String} (h : l ≠ []) : isUnder l.dropLast l :=
  ⟨[l.getLast h], List.dropLast_append_getLast h⟩

theorem isUnder_of_isUnder_dropLast {q l : List String} (h : isUnder q l.dropLast) :
    isUnder q l := by
  by_cases hl : l = []
  · subst hl; exact h
  · exact isUnder_trans h (dropLast_isUnder hl)

theorem dropLast_eq_self_iff_nil (l : List String) : l.dropLast = l ↔ l = [] := by
  constructor
  · intro h
    by_contra hne
    have hlen := congrArg List.length h
    rw [List.length_dropLast] at hlen
    have hpos : 0 < l.length := List.length_pos.mpr hne
    omega
  · intro h; subst h; rfl

/--
The loop body of FileUpsearch (sammy.py lines 110-119).  `cur` is the current
directory; `os.path.dirname` is modelled by `List.dropLast` (the dirname of
the root is the root itself).  The Python loop compares
`cur_dir == parent_dir` where `cur_dir` is a `pathlib.Path` object on the
first iteration and a plain string afterwards; a `Path` never compares equal
to a string, so the root check is inert exactly on the first iteration.  The
`first` flag reproduces this faithfully.  The `none` result models the
`Exception(f"Could not find ... directory")` raise (the spec's
WorkspaceNotFound).
-/
def FileUpsearchGo (fs : FS) (fileName : String) (first : Bool) (cur : List String) :
    Option (List String) :=
  if fileName ∈ fs.children cur then some cur
  else if h : first = false ∧ cur.dropLast = cur then none
  else FileUpsearchGo fs fileName false cur.dropLast
termination_by cur.length + (if first then 1 else 0)
decreasing_by
  simp only [List.length_dropLast]
  cases first with
  | true => simp; omega
  | false =>
    have hd : cur.dropLast ≠ cur := fun hdd => h ⟨rfl, hdd⟩
    have hne : cur ≠ [] := fun hnil => hd (by simp [hnil])
    have hpos : 0 < cur.length := List.length_pos.mpr hne
    simp
    omega

/--
Normalization of the starting position (sammy.py lines 105-108): a directory
is used as-is, a file path is replaced by its parent directory.
-/
def startDir (fs : FS) (startingPosition : List String) : List String :=
  if fs.isDir startingPosition then startingPosition else startingPosition.dropLast

/--
FileUpsearch (sammy.py lines 101-119): walk upward from `startingPosition`
looking for a directory whose immediate children include `fileName`;
`some dir` models returning `cur_dir`, `none` models the raised exception.
-/
def FileUpsearch (fs : FS) (fileName : String) (startingPosition : List String) :
    Option (List String) :=
  FileUpsearchGo fs fileName true (startDir fs startingPosition)

theorem FileUpsearchGo_finds (fs : FS) (fileName : String) :
    ∀ (n : Nat) (first : Bool) (cur root : List String),
    cur.length + (if first then 1 else 0) = n →
    isUnder root cur →
    fileName ∈ fs.children root →
    (∀ q, isUnder q cur → fileName ∈ fs.children q → q.length ≤ root.length) →
    FileUpsearchGo fs fileName first cur = some root := by
  intro n
  induction n using Nat.strong_induction_on with
  | _ n ih =>
    intro first cur root hn hroot hmark hnear
    rw [FileUpsearchGo]
    by_cases hm : fileName ∈ fs.children cur
    · rw [if_pos hm]
      obtain ⟨t, ht⟩ := hroot
      have hlen1 : cur.length ≤ root.length := hnear cur (isUnder_refl cur) hm
      have hlen2 := congrArg List.length ht
      rw [List.length_append] at hlen2
      have htnil : t = [] := List.eq_nil_of_length_eq_zero (by omega)
      subst htnil
      rw [List.append_nil] at ht
      rw [ht]
    · rw [if_neg hm]
      have hrc : root ≠ cur := fun h => hm (h ▸ hmark)
      obtain ⟨t, ht⟩ := hroot
      have htne : t ≠ [] := fun h => hrc (by rw [← ht, h, List.append_nil])
      have hcne : cur ≠ [] := by
        intro h
        rw [h] at ht
        exact htne (List.append_eq_nil.mp ht).2
      have hdne : cur.dropLast ≠ cur := fun h => hcne ((dropLast_eq_self_iff_nil cur).mp h)
      rw [dif_neg (fun h => hdne h.2)]
      have hdrop : cur.dropLast = root ++ t.dropLast := by
        rw [← ht, List.dropLast_append_of_ne_nil _ htne]
      have hposc : 0 < cur.length := List.length_pos.mpr hcne
      have hmeas : cur.dropLast.length + (if false then 1 else 0) < n := by
        rw [List.length_dropLast, ← hn]
        cases first <;> simp <;> omega
      exact ih _ hmeas false cur.dropLast root rfl ⟨t.dropLast, hdrop.symm⟩ hmark
        (fun q hq hmq => hnear q (isUnder_of_isUnder_dropLast hq) hmq)

theorem FileUpsearchGo_not_found (fs : FS) (fileName : String) :
    ∀ (n : Nat) (first : Bool) (cur : List String),
    cur.length + (if first then 1 else 0) = n →
    (∀ q, isUnder q cur → fileName ∉ fs.children q) →
    FileUpsearchGo fs fileName first cur = none := by
  intro n
  induction n using Nat.strong_induction_on with
  | _ n ih =>
    intro first cur hn hnone
    rw [FileUpsearchGo]
    have hm : fileName ∉ fs.children cur := hnone cur (isUnder_refl cur)
    rw [if_neg hm]
    by_cases hstop : first = false ∧ cur.dropLast = cur
    · rw [dif_pos hstop]
    · rw [dif_neg hstop]
      have hmeas : cur.dropLast.length + (if false then 1 else 0) < n := by
        rw [List.length_dropLast, ← hn]
        cases first with
        | true => simp; omega
        | false =>
          have hd : cur.dropLast ≠ cur := fun hdd => hstop ⟨rfl, hdd⟩
          have hne : cur ≠ [] := fun hnil => hd (by simp [hnil])
          have hpos : 0 < cur.length := List.length_pos.mpr hne
          simp
          omega
      exact ih _ hmeas false cur.dropLast rfl
        (fun q hq => hnone q (isUnder_of_isUnder_dropLast hq))

/--
Claim C1: for every starting path (file or directory) and marker name, the
workspace locator returns the nearest ancestor directory (the starting
directory itself included when it is a directory) whose immediate children
include the marker, whenever such an ancestor exists; in particular for a
path nested arbitrarily deep under a workspace root it returns exactly the
root.  `root` is the nearest marked ancestor of the normalized starting
directory: every marked ancestor is at most as deep as `root`.
-/
theorem FileUpsearch_returns_nearest_marked_ancestor
    (fs : FS) (marker : String) (startingPosition root : List String)
    (hroot : isUnder root (startDir fs startingPosition))
    (hmark : marker ∈ fs.children root)
    (hnear : ∀ q, isUnder q (startDir fs startingPosition) →
      marker ∈ fs.children q → q.length ≤ root.length) :
    FileUpsearch fs marker startingPosition = some root :=
  FileUpsearchGo_finds fs marker _ true (startDir fs startingPosition) root rfl
    hroot hmark hnear

/--
Claim C5: the upward search always terminates (FileUpsearchGo is a total
function, its termination measure strictly decreases into the recursive
call); when no ancestor of the starting directory up to the filesystem root
contains the marker, the loop reaches the parent-equals-current state and
exits by raising (the spec's WorkspaceNotFound), modelled as `none`, rather
than looping forever.
-/
theorem FileUpsearch_no_marker_fails_not_found
    (fs : FS) (marker : String) (startingPosition : List String)
    (hnone : ∀ q, isUnder q (startDir fs startingPosition) →
      marker ∉ fs.children q) :
    FileUpsearch fs marker startingPosition = none :=
  FileUpsearchGo_not_found fs marker _ true (startDir fs startingPosition) rfl hnone

/-- A concrete three-level workspace used to witness the locator theorems:
the marker directory `.sj2` sits in `a`, and the search starts from the
nested directory `a/b/c`. -/
def fsW : FS where
  isDir := fun _ => true
  children := fun p =>
    if p = ["a"] then [".sj2", "b"]
    else if p = ["a", "b"] then ["c"]
    else if p = ["a", "b", "c"] then ["main.cpp"]
    else []

theorem FileUpsearch_returns_nearest_marked_ancestor_witness :
    FileUpsearch fsW ".sj2" ["a", "b", "c"] = some ["a"] := by
  apply FileUpsearch_returns_nearest_marked_ancestor fsW ".sj2" ["a", "b", "c"] ["a"]
  · exact ⟨["b", "c"], by decide⟩
  · decide
  · intro q _ hm
    by_cases h1 : q = ["a"]
    · subst h1; decide
    · by_cases h2 : q = ["a", "b"]
      · subst h2; exact absurd hm (by decide)
      · by_cases h3 : q = ["a", "b", "c"]
        · subst h3; exact absurd hm (by decide)
        · have : fsW.children q = [] := by simp [fsW, h1, h2, h3]
          rw [this] at hm
          exact absurd hm (by simp)

theorem FileUpsearch_no_marker_fails_not_found_witness :
    FileUpsearch fsW ".nope" ["a", "b", "c"] = none := by
  apply FileUpsearch_no_marker_fails_not_found fsW ".nope" ["a", "b", "c"]
  intro q _
  by_cases h1 : q = ["a"]
  · subst h1; decide
  · by_cases h2 : q = ["a", "b"]
    · subst h2; decide
    · by_cases h3 : q = ["a", "b", "c"]
      · subst h3; decide
      · have : fsW.children q = [] := by simp [fsW, h1, h2, h3]
        rw [this]
        simp

/-
Package resolver model (sammy.py install, lines 193-247, and remove, lines
263-280).  The workspace is located beforehand with FileUpsearch; the state
below views it through the two directories install and remove touch:
packages/<short-name> cache entries and library/<short-name> symbolic links.
-/

/--
The tree fetched for a package: the names of its top-level entries (install
checks whether the entry named after the repository itself exists) and its
files, each flagged read-only or not (remove must clear write protection on
read-only files).
-/
structure RepoSnapshot where
  entries : List String
  files : List (String × Bool)
deriving DecidableEq

/--
The parts of the workspace state that install and remove read and write:
`packages name` is the cache entry at packages/<name> (none when absent);
`library name` is the symbolic link at library/<name>, holding the short
name `t` of its target packages/<t>/<t> (none when no link).  A filesystem
path holds at most one entry, so at most one link per short name holds by
construction.
-/
structure PkgState where
  packages : String → Option RepoSnapshot
  library : String → Option String

inductive InstallResult where
  | ok
  | fetchFailed
  | invalidReference
deriving DecidableEq

/--
Outcome of one install invocation: the result (ok, the exit(1) taken when
the clone fails, or the uncaught giturlparse failure, the spec's
InvalidPackageReference), the final state, the (url, tag) pairs of the
attempted git clone commands, and how many already-exists errors the
symlink creation raised.
-/
structure InstallOutcome where
  result : InstallResult
  state : PkgState
  cloneCalls : List (String × String)
  linkExistsErrors : Nat

/--
Reference resolution (sammy.py lines 217-218): an identifier that is a key
of the registry mapping is replaced by the mapped clone URL; any other
identifier is used as the URL itself.
-/
def resolveUrl (registry : String → Option String) (identifier : String) : String :=
  match registry identifier with
  | some url => url
  | none => identifier

/--
Modelled behavior of the external process `git clone <url> --branch <tag>`
run in the packages directory (sammy.py lines 221-222): it creates
packages/<name> holding the remote content and exits 0, except that git
refuses to clone into an existing non-empty destination ("fatal: destination
path ... already exists and is not an empty directory") and exits 128; a
present cache entry is a previously fetched tree, hence non-empty.
`remote url tag` is the tree the remote serves for that url and tag.
-/
def gitClone (remote : String → String → RepoSnapshot) (st : PkgState)
    (url tag name : String) : Nat × PkgState :=
  match st.packages name with
  | some _ => (128, st)
  | none =>
      (0, { st with packages := fun m => if m = name then some (remote url tag) else st.packages m })

/--
AttemptToUnlinkPath (sammy.py lines 76-83) applied to library/<name>:
unlink the symbolic link; a FileNotFoundError (no link) is swallowed, so
the result is simply a state with no link at library/<name>.
-/
def AttemptToUnlinkPath (st : PkgState) (name : String) : PkgState :=
  { st with library := fun m => if m = name then none else st.library m }

/--
Path.symlink_to at library/<name> pointing to packages/<target>/<target>
(sammy.py line 237).  Creating a symlink where a filesystem entry already
exists raises FileExistsError: the Bool records whether that error was
raised (install wraps the call in try/except pass, so the error never
propagates, but we track that it never even occurs).
-/
def symlinkTo (st : PkgState) (name target : String) : Bool × PkgState :=
  match st.library name with
  | some _ => (true, st)
  | none => (false, { st with library := fun m => if m = name then some target else st.library m })

/--
The fetch-and-link part of install (sammy.py lines 220-247), after the
identifier has been resolved to `url` and giturlparse has produced
`repoName`: run git clone; on success, unlink library/<repoName> and, when
the fetched tree contains an inner entry named `repoName`, symlink
library/<repoName> to packages/<repoName>/<repoName>; on clone failure,
exit(1).
-/
def installFetchAndLink (remote : String → String → RepoSnapshot) (st : PkgState)
    (url tag repoName : String) : InstallOutcome :=
  match gitClone remote st url tag repoName with
  | (exitCode, st1) =>
    if exitCode = 0 then
      match (AttemptToUnlinkPath st1 repoName).packages repoName with
      | some snap =>
        if repoName ∈ snap.entries then
          match symlinkTo (AttemptToUnlinkPath st1 repoName) repoName repoName with
          | (errFlag, st3) =>
            { result := InstallResult.ok, state := st3, cloneCalls := [(url, tag)],
              linkExistsErrors := if errFlag then 1 else 0 }
        else
          { result := InstallResult.ok, state := AttemptToUnlinkPath st1 repoName,
            cloneCalls := [(url, tag)], linkExistsErrors := 0 }
      | none =>
        { result := InstallResult.ok, state := AttemptToUnlinkPath st1 repoName,
          cloneCalls := [(url, tag)], linkExistsErrors := 0 }
    else
      { result := InstallResult.fetchFailed, state := st1, cloneCalls := [(url, tag)],
        linkExistsErrors := 0 }

/--
install (sammy.py lines 193-247), after the workspace has been located.
`registry` is the remote registry mapping (GetListOfSJSUDev2Repos);
`parseRepoName` models the external giturlparse: `some name` is
`giturlparse.parse(url).name`, and `none` means the URL is not parseable as
a VCS URL, in which case the attribute access raises before any clone is
attempted (the spec's InvalidPackageReference).
-/
def install (registry : String → Option String) (parseRepoName : String → Option String)
    (remote : String → String → RepoSnapshot) (st : PkgState)
    (identifier tag : String) : InstallOutcome :=
  match parseRepoName (resolveUrl registry identifier) with
  | none =>
      { result := InstallResult.invalidReference, state := st, cloneCalls := [],
        linkExistsErrors := 0 }
  | some repoName => installFetchAndLink remote st (resolveUrl registry identifier) tag repoName

/--
A link at library/<name> is dangling when its target
packages/<t>/<t> does not exist in the current state.
-/
def linkDangling (st : PkgState) (name : String) : Bool :=
  match st.library name with
  | none => false
  | some t =>
    match st.packages t with
    | none => true
    | some snap => if t ∈ snap.entries then false else true

theorem installFetchAndLink_fresh_eq (remote : String → String → RepoSnapshot)
    (st : PkgState) (url tag repoName : String)
    (hfresh : st.packages repoName = none)
    (hinner : repoName ∈ (remote url tag).entries) :
    installFetchAndLink remote st url tag repoName =
      { result := InstallResult.ok,
        state := { packages := fun m => if m = repoName then some (remote url tag) else st.packages m,
                   library := fun m => if m = repoName then some repoName else st.library m },
        cloneCalls := [(url, tag)],
        linkExistsErrors := 0 } := by
  unfold installFetchAndLink gitClone AttemptToUnlinkPath symlinkTo
  rw [hfresh]
  simp [hinner]
  funext m
  by_cases h : m = repoName <;> simp [h]

theorem installFetchAndLink_existing_eq (remote : String → String → RepoSnapshot)
    (st : PkgState) (url tag repoName : String) (snap : RepoSnapshot)
    (hcache : st.packages repoName = some snap) :
    installFetchAndLink remote st url tag repoName =
      { result := InstallResult.fetchFailed, state := st, cloneCalls := [(url, tag)],
        linkExistsErrors := 0 } := by
  unfold installFetchAndLink gitClone
  rw [hcache]
  rfl

theorem installFetchAndLink_cloneCalls (remote : String → String → RepoSnapshot)
    (st : PkgState) (url tag repoName : String) :
    (installFetchAndLink remote st url tag repoName).cloneCalls = [(url, tag)] := by
  unfold installFetchAndLink
  repeat' split
  all_goals rfl

/--
Claim C2: after install completes successfully for a library whose
repository contains an inner directory named after its short name, exactly
one link exists at library/<short-name> (the link slot holds it, pointing at
packages/<short-name>/<short-name>, which holds the most recently fetched
content) and the link is not dangling; running install twice in succession
for the same name raises no already-exists link error (the slot is unlinked
before the symlink is created, and the second invocation aborts at the
clone before touching the link) and leaves neither a dangling nor a
duplicate link.
-/
theorem install_twice_link_invariant
    (registry : String → Option String) (parseRepoName : String → Option String)
    (remote : String → String → RepoSnapshot) (st : PkgState)
    (identifier tag tag2 url repoName : String)
    (hurl : resolveUrl registry identifier = url)
    (hparse : parseRepoName url = some repoName)
    (hfresh : st.packages repoName = none)
    (hinner : repoName ∈ (remote url tag).entries) :
    (install registry parseRepoName remote st identifier tag).result = InstallResult.ok ∧
    (install registry parseRepoName remote st identifier tag).state.library repoName
      = some repoName ∧
    (install registry parseRepoName remote st identifier tag).state.packages repoName
      = some (remote url tag) ∧
    linkDangling (install registry parseRepoName remote st identifier tag).state repoName
      = false ∧
    (install registry parseRepoName remote st identifier tag).linkExistsErrors = 0 ∧
    (install registry parseRepoName remote
      (install registry parseRepoName remote st identifier tag).state
      identifier tag2).linkExistsErrors = 0 ∧
    (install registry parseRepoName remote
      (install registry parseRepoName remote st identifier tag).state
      identifier tag2).state.library repoName = some repoName ∧
    (install registry parseRepoName remote
      (install registry parseRepoName remote st identifier tag).state
      identifier tag2).state.packages repoName = some (remote url tag) ∧
    linkDangling (install registry parseRepoName remote
      (install registry parseRepoName remote st identifier tag).state
      identifier tag2).state repoName = false := by
  have hi1 : install registry parseRepoName remote st identifier tag
      = installFetchAndLink remote st url tag repoName := by
    unfold install
    rw [hurl, hparse]
  rw [hi1, installFetchAndLink_fresh_eq remote st url tag repoName hfresh hinner]
  simp only []
  have hcache : (PkgState.mk
      (fun m => if m = repoName then some (remote url tag) else st.packages m)
      (fun m => if m = repoName then some repoName else st.library m)).packages repoName
      = some (remote url tag) := by simp
  have hi2 : install registry parseRepoName remote
      (PkgState.mk
        (fun m => if m = repoName then some (remote url tag) else st.packages m)
        (fun m => if m = repoName then some repoName else st.library m))
      identifier tag2
      = installFetchAndLink remote
        (PkgState.mk
          (fun m => if m = repoName then some (remote url tag) else st.packages m)
          (fun m => if m = repoName then some repoName else st.library m))
        url tag2 repoName := by
    unfold install
    rw [hurl, hparse]
  rw [hi2, installFetchAndLink_existing_eq remote _ url tag2 repoName (remote url tag) hcache]
  simp [linkDangling, hinner]

/--
Claim C3 (amended): when a cache entry for the resolved short name already
exists under packages/, the fetch fails on the prior contents (git clone
refuses the existing destination), install aborts with the nonzero-exit
path, and the prior cache entry and link are left untouched.
-/
theorem install_existing_cache_fails_and_preserves
    (registry : String → Option String) (parseRepoName : String → Option String)
    (remote : String → String → RepoSnapshot) (st : PkgState)
    (identifier tag url repoName : String) (snap : RepoSnapshot)
    (hurl : resolveUrl registry identifier = url)
    (hparse : parseRepoName url = some repoName)
    (hcache : st.packages repoName = some snap) :
    (install registry parseRepoName remote st identifier tag).result
      = InstallResult.fetchFailed ∧
    (install registry parseRepoName remote st identifier tag).state = st ∧
    (install registry parseRepoName remote st identifier tag).cloneCalls = [(url, tag)] := by
  have hi : install registry parseRepoName remote st identifier tag
      = installFetchAndLink remote st url tag repoName := by
    unfold install
    rw [hurl, hparse]
  rw [hi, installFetchAndLink_existing_eq remote st url tag repoName snap hcache]
  exact ⟨rfl, rfl, rfl⟩

/--
Claim C4: an identifier that is a registry key resolves to the registry's
mapped URL and any attempted clone uses that URL; an identifier that is not
a registry key but parses as a VCS URL resolves to itself and the clone
uses it; an identifier that is neither fails (the spec's
InvalidPackageReference: the giturlparse attribute access raises) with no
clone attempted.
-/
theorem install_reference_resolution
    (registry : String → Option String) (parseRepoName : String → Option String)
    (remote : String → String → RepoSnapshot) (st : PkgState)
    (identifier tag : String) :
    (∀ url, registry identifier = some url →
      resolveUrl registry identifier = url ∧
      (parseRepoName url ≠ none →
        (install registry parseRepoName remote st identifier tag).cloneCalls = [(url, tag)])) ∧
    (registry identifier = none →
      resolveUrl registry identifier = identifier ∧
      (parseRepoName identifier ≠ none →
        (install registry parseRepoName remote st identifier tag).cloneCalls
          = [(identifier, tag)]) ∧
      (parseRepoName identifier = none →
        (install registry parseRepoName remote st identifier tag).result
          = InstallResult.invalidReference ∧
        (install registry parseRepoName remote st identifier tag).cloneCalls = [])) := by
  constructor
  · intro url hreg
    have hres : resolveUrl registry identifier = url := by
      unfold resolveUrl
      rw [hreg]
    refine ⟨hres, fun hp => ?_⟩
    rcases hn : parseRepoName url with _ | repoName
    · exact absurd hn hp
    · have : install registry parseRepoName remote st identifier tag
          = installFetchAndLink remote st url tag repoName := by
        unfold install
        rw [hres, hn]
      rw [this]
      exact installFetchAndLink_cloneCalls remote st url tag repoName
  · intro hreg
    have hres : resolveUrl registry identifier = identifier := by
      unfold resolveUrl
      rw [hreg]
    refine ⟨hres, fun hp => ?_, fun hn => ?_⟩
    · rcases hn : parseRepoName identifier with _ | repoName
      · exact absurd hn hp
      · have : install registry parseRepoName remote st identifier tag
            = installFetchAndLink remote st identifier tag repoName := by
          unfold install
          rw [hres, hn]
        rw [this]
        exact installFetchAndLink_cloneCalls remote st identifier tag repoName
    · have : install registry parseRepoName remote st identifier tag
          = { result := InstallResult.invalidReference, state := st, cloneCalls := [],
              linkExistsErrors := 0 } := by
        unfold install
        rw [hres, hn]
      rw [this]
      exact ⟨rfl, rfl⟩

/-- A concrete registry mapping the short name libcore to its clone URL. -/
def registryW : String → Option String :=
  fun s => if s = "libcore" then some "https://github.com/SJSU-Dev2/libcore" else none

/-- A concrete model of giturlparse: only the libcore URL parses. -/
def parseRepoNameW : String → Option String :=
  fun s => if s = "https://github.com/SJSU-Dev2/libcore" then some "libcore" else none

/-- A concrete remote whose served tree depends on the requested tag and
contains the inner libcore directory. -/
def remoteW : String → String → RepoSnapshot :=
  fun _ tag => { entries := ["libcore", ".git", tag],
                 files := [("libcore/peripherals/gpio.hpp", false)] }

/-- A workspace with no package installed. -/
def emptyStateW : PkgState := { packages := fun _ => none, library := fun _ => none }

/-- A previously fetched libcore tree, distinct from what the remote now
serves. -/
def oldSnapshotW : RepoSnapshot := { entries := ["libcore", ".git", "old"], files := [] }

/-- A workspace whose cache already holds libcore. -/
def cachedStateW : PkgState :=
  { packages := fun m => if m = "libcore" then some oldSnapshotW else none,
    library := fun m => if m = "libcore" then some "libcore" else none }

theorem install_twice_link_invariant_witness :
    (install registryW parseRepoNameW remoteW emptyStateW "libcore" "main").result
      = InstallResult.ok ∧
    (install registryW parseRepoNameW remoteW emptyStateW "libcore" "main").state.library "libcore"
      = some "libcore" ∧
    (install registryW parseRepoNameW remoteW
      (install registryW parseRepoNameW remoteW emptyStateW "libcore" "main").state
      "libcore" "v2").linkExistsErrors = 0 ∧
    (install registryW parseRepoNameW remoteW
      (install registryW parseRepoNameW remoteW emptyStateW "libcore" "main").state
      "libcore" "v2").state.library "libcore" = some "libcore" ∧
    linkDangling (install registryW parseRepoNameW remoteW
      (install registryW parseRepoNameW remoteW emptyStateW "libcore" "main").state
      "libcore" "v2").state "libcore" = false := by
  have h := install_twice_link_invariant registryW parseRepoNameW remoteW emptyStateW
    "libcore" "main" "v2" "https://github.com/SJSU-Dev2/libcore" "libcore"
    (by decide) (by decide) (by decide) (by decide)
  exact ⟨h.1, h.2.1, h.2.2.2.2.2.1, h.2.2.2.2.2.2.1, h.2.2.2.2.2.2.2.2⟩

/--
Counterexample to claim C3 as stated: with a cache entry already present
for libcore, install does not overwrite it with a clean checkout of the
requested tag; the fetch fails on the prior contents and the cache keeps
the old tree, which differs from the newly requested one.
-/
theorem install_existing_cache_not_overwritten_counterexample :
    (install registryW parseRepoNameW remoteW cachedStateW "libcore" "v2").result
      = InstallResult.fetchFailed ∧
    (install registryW parseRepoNameW remoteW cachedStateW "libcore" "v2").state.packages "libcore"
      = some oldSnapshotW ∧
    oldSnapshotW ≠ remoteW "https://github.com/SJSU-Dev2/libcore" "v2" := by
  decide

theorem install_existing_cache_fails_and_preserves_witness :
    (install registryW parseRepoNameW remoteW cachedStateW "libcore" "v2").result
      = InstallResult.fetchFailed ∧
    (install registryW parseRepoNameW remoteW cachedStateW "libcore" "v2").state = cachedStateW ∧
    (install registryW parseRepoNameW remoteW cachedStateW "libcore" "v2").cloneCalls
      = [("https://github.com/SJSU-Dev2/libcore", "v2")] :=
  install_existing_cache_fails_and_preserves registryW parseRepoNameW remoteW cachedStateW
    "libcore" "v2" "https://github.com/SJSU-Dev2/libcore" "libcore" oldSnapshotW
    (by decide) (by decide) (by decide)

theorem install_reference_resolution_witness :
    (install registryW parseRepoNameW remoteW emptyStateW "libcore" "main").cloneCalls
      = [("https://github.com/SJSU-Dev2/libcore", "main")] ∧
    (install registryW parseRepoNameW remoteW emptyStateW
      "https://github.com/SJSU-Dev2/libcore" "main").cloneCalls
      = [("https://github.com/SJSU-Dev2/libcore", "main")] ∧
    (install registryW parseRepoNameW remoteW emptyStateW "not a VCS url" "main").result
      = InstallResult.invalidReference ∧
    (install registryW parseRepoNameW remoteW emptyStateW "not a VCS url" "main").cloneCalls
      = [] := by
  have h1 := install_reference_resolution registryW parseRepoNameW remoteW emptyStateW
    "libcore" "main"
  have h2 := install_reference_resolution registryW parseRepoNameW remoteW emptyStateW
    "https://github.com/SJSU-Dev2/libcore" "main"
  have h3 := install_reference_resolution registryW parseRepoNameW remoteW emptyStateW
    "not a VCS url" "main"
  refine ⟨(h1.1 _ (by decide)).2 (by decide), ((h2.2 (by decide)).2.1 (by decide)),
    ((h3.2 (by decide)).2.2 (by decide)).1, ((h3.2 (by decide)).2.2 (by decide)).2⟩

/-
remove (sammy.py lines 263-280): unlink the dependency link, then
shutil.rmtree the cache entry with onerror=DeleteReadOnlyFiles.
-/

/-- Primitive filesystem operations performed while deleting a tree. -/
inductive FsOp where
  | chmodWrite (path : String)
  | removeFile (path : String)
deriving DecidableEq

/--
DeleteReadOnlyFiles (sammy.py lines 86-88), the rmtree onerror handler:
os.chmod(name, stat.S_IWRITE) to clear the write-protection bit, then
os.remove(name).
-/
def DeleteReadOnlyFiles (path : String) : List FsOp :=
  [FsOp.chmodWrite path, FsOp.removeFile path]

/--
Modelled behavior of shutil.rmtree(path, onerror=DeleteReadOnlyFiles) on an
existing tree: every file is removed; removing a write-protected file
raises, which invokes the onerror handler DeleteReadOnlyFiles (clear the
bit, then remove).  The result is the trace of operations performed.
-/
def rmtreeOps : List (String × Bool) → List FsOp
  | [] => []
  | f :: rest =>
    (if f.2 then DeleteReadOnlyFiles f.1 else [FsOp.removeFile f.1]) ++ rmtreeOps rest

inductive RemoveError where
  | packageNotFound
deriving DecidableEq

/--
Outcome of one remove invocation: the error if any (on a missing cache
directory shutil.rmtree invokes the onerror handler whose os.chmod raises
FileNotFoundError, the spec's PackageNotFound), the final state, and the
trace of file operations performed while deleting the cache entry.
-/
structure RemoveOutcome where
  error : Option RemoveError
  state : PkgState
  ops : List FsOp

/--
remove (sammy.py lines 263-280), after the workspace has been located:
AttemptToUnlinkPath on library/<name> (missing link swallowed), then
shutil.rmtree on packages/<name>/ with the DeleteReadOnlyFiles handler.
-/
def remove (st : PkgState) (name : String) : RemoveOutcome :=
  match (AttemptToUnlinkPath st name).packages name with
  | none =>
    { error := some RemoveError.packageNotFound, state := AttemptToUnlinkPath st name,
      ops := [] }
  | some snap =>
    { error := none,
      state := { AttemptToUnlinkPath st name with
                 packages := fun m => if m = name then none
                   else (AttemptToUnlinkPath st name).packages m },
      ops := rmtreeOps snap.files }

theorem rmtreeOps_clears_before_removing (files : List (String × Bool)) (p : String)
    (h : (p, true) ∈ files) :
    ∃ l r, rmtreeOps files = l ++ (DeleteReadOnlyFiles p ++ r) := by
  induction files with
  | nil => cases h
  | cons f rest ih =>
    rcases List.mem_cons.mp h with hf | hrest
    · refine ⟨[], rmtreeOps rest, ?_⟩
      rw [rmtreeOps, ← hf]
      simp
    · obtain ⟨l, r, hlr⟩ := ih hrest
      refine ⟨(if f.2 then DeleteReadOnlyFiles f.1 else [FsOp.removeFile f.1]) ++ l, r, ?_⟩
      rw [rmtreeOps, hlr, List.append_assoc]

/--
Claim C8: remove deletes the dependency link first (a missing link is not
an error; the link is gone even when remove fails), then recursively
deletes the cache entry, force-clearing the write-protection bit of each
read-only file before removing it; it fails with PackageNotFound exactly
when the cache entry does not exist, independent of whether the link was
present.
-/
theorem remove_unlinks_then_deletes_cache (st : PkgState) (name : String) :
    (remove st name).state.library name = none ∧
    ((remove st name).error = some RemoveError.packageNotFound ↔ st.packages name = none) ∧
    (∀ snap, st.packages name = some snap →
      (remove st name).error = none ∧
      (remove st name).state.packages name = none ∧
      (remove st name).ops = rmtreeOps snap.files ∧
      ∀ p, (p, true) ∈ snap.files →
        ∃ l r, (remove st name).ops = l ++ (DeleteReadOnlyFiles p ++ r)) := by
  have hpk : (AttemptToUnlinkPath st name).packages name = st.packages name := rfl
  rcases h : st.packages name with _ | snap
  · have hr : remove st name =
        { error := some RemoveError.packageNotFound, state := AttemptToUnlinkPath st name,
          ops := [] } := by
      unfold remove
      rw [hpk, h]
    rw [hr]
    refine ⟨by simp [AttemptToUnlinkPath], by simp, fun snap hsnap => by simp [h] at hsnap⟩
  · have hr : remove st name =
        { error := none,
          state := { AttemptToUnlinkPath st name with
                     packages := fun m => if m = name then none
                       else (AttemptToUnlinkPath st name).packages m },
          ops := rmtreeOps snap.files } := by
      unfold remove
      rw [hpk, h]
    rw [hr]
    refine ⟨by simp [AttemptToUnlinkPath], by simp, fun snap2 hsnap2 => ?_⟩
    have hss : snap = snap2 := Option.some.inj hsnap2
    subst hss
    exact ⟨rfl, by simp, rfl, fun p hp => rmtreeOps_clears_before_removing snap.files p hp⟩

/-- A fetched libcore tree one of whose files is read-only. -/
def removeSnapshotW : RepoSnapshot :=
  { entries := ["libcore", ".git"],
    files := [("libcore/peripherals/gpio.hpp", false), (".git/objects/pack/p1.idx", true)] }

/-- A workspace holding the libcore cache entry whose dependency link was
already manually deleted. -/
def removeStateW : PkgState :=
  { packages := fun m => if m = "libcore" then some removeSnapshotW else none,
    library := fun _ => none }

theorem remove_unlinks_then_deletes_cache_witness :
    (remove removeStateW "libcore").error = none ∧
    (remove removeStateW "libcore").state.packages "libcore" = none ∧
    (remove removeStateW "libcore").state.library "libcore" = none ∧
    FsOp.chmodWrite ".git/objects/pack/p1.idx" ∈ (remove removeStateW "libcore").ops := by
  have h := remove_unlinks_then_deletes_cache removeStateW "libcore"
  have h2 := h.2.2 removeSnapshotW (by decide)
  obtain ⟨l, r, hlr⟩ := h2.2.2.2 ".git/objects/pack/p1.idx" (by decide)
  refine ⟨h2.1, h2.2.1, h.1, ?_⟩
  rw [hlr]
  simp [DeleteReadOnlyFiles]

/-
Pipeline runner (GenerateAndCheck, sammy.py lines 91-97) and the build
command (sammy.py lines 384-524).  The shell is an oracle mapping the
command string actually executed to its exit code.
-/

/--
The Python command_string.replace of each newline by a space
(sammy.py line 93), performed before the command is handed to os.system.
-/
def flattenNewlines (s : String) : String :=
  String.mk (s.data.map (fun c => if c = '\n' then ' ' else c))

/--
GenerateAndCheck (sammy.py lines 91-97): echo the start message, run the
command with newlines replaced by spaces through os.system, and on a
nonzero exit raise Exception(error_message).  The result is the command
string handed to the shell paired with the raised message, if any.
-/
def GenerateAndCheck (run : String → Nat) (commandString errorMessage : String) :
    String × Option String :=
  (flattenNewlines commandString,
    if run (flattenNewlines commandString) = 0 then none else some errorMessage)

/-- One pipeline step: its start message, command string and the error
message raised when its process exits nonzero. -/
structure Step where
  startMessage : String
  command : String
  errorMessage : String

/--
An ordered sequence of GenerateAndCheck steps inside one try block (as in
build, sammy.py lines 493-512): each step runs in order and the first
raised error aborts the remaining steps.  The result is the list of
commands handed to the shell, in order, and the first error message, if
any.
-/
def runPipeline (run : String → Nat) : List Step → List String × Option String
  | [] => ([], none)
  | s :: rest =>
    match GenerateAndCheck run s.command s.errorMessage with
    | (cmd, some err) => ([cmd], some err)
    | (cmd, none) =>
      match runPipeline run rest with
      | (cmds, err) => (cmd :: cmds, err)

/--
Claim C6: in an ordered list of pipeline steps, the first step whose
process exits nonzero aborts all subsequent steps — the executed-command
trace stops at the failing step and the reported failure carries that
step's error message — so in the 5-step artifact pipeline a step-3 failure
leaves steps 4 and 5 never invoked and names step 3 (see the witness).
-/
theorem runPipeline_first_failure_aborts_rest
    (run : String → Nat) (pre post : List Step) (s : Step)
    (hpre : ∀ p ∈ pre, run (flattenNewlines p.command) = 0)
    (hfail : run (flattenNewlines s.command) ≠ 0) :
    runPipeline run (pre ++ s :: post) =
      (pre.map (fun p => flattenNewlines p.command) ++ [flattenNewlines s.command],
        some s.errorMessage) := by
  induction pre with
  | nil =>
    simp only [List.nil_append, List.map_nil, runPipeline, GenerateAndCheck]
    rw [if_neg hfail]
  | cons p rest ih =>
    have hp : run (flattenNewlines p.command) = 0 := hpre p (List.mem_cons_self p rest)
    have ihr := ih (fun q hq => hpre q (List.mem_cons_of_mem p hq))
    simp only [List.cons_append, runPipeline, GenerateAndCheck, List.append_eq]
    rw [if_pos hp, ihr]
    simp

/-- Every command a pipeline hands to the shell is the newline-flattened
command of one of its steps. -/
theorem runPipeline_executed_mem (run : String → Nat) (steps : List Step) :
    ∀ c ∈ (runPipeline run steps).1, ∃ s, s ∈ steps ∧ c = flattenNewlines s.command := by
  induction steps with
  | nil => intro c hc; simp [runPipeline] at hc
  | cons s rest ih =>
    intro c hc
    rw [runPipeline, GenerateAndCheck] at hc
    by_cases hr : run (flattenNewlines s.command) = 0
    · rw [if_pos hr] at hc
      rcases hp : runPipeline run rest with ⟨cmds, err⟩
      rw [hp] at hc
      simp only [] at hc
      rcases List.mem_cons.mp hc with hh | ht
      · exact ⟨s, List.mem_cons_self s rest, hh⟩
      · obtain ⟨s2, hs2, hcs2⟩ := ih c (by rw [hp]; exact ht)
        exact ⟨s2, List.mem_cons_of_mem s hs2, hcs2⟩
    · rw [if_neg hr] at hc
      simp only [List.mem_singleton] at hc
      exact ⟨s, List.mem_cons_self s rest, hc⟩

theorem flattenNewlines_no_newline (s : String) :
    ∀ c ∈ (flattenNewlines s).data, c ≠ '\n' := by
  intro c hc
  have : c ∈ s.data.map (fun c => if c = '\n' then ' ' else c) := hc
  obtain ⟨a, _, ha⟩ := List.mem_map.mp this
  by_cases h : a = '\n'
  · rw [h] at ha
    simp at ha
    rw [← ha]
    decide
  · rw [if_neg h] at ha
    rw [← ha]
    exact h

/--
One build invocation's configuration (sammy.py lines 384-414), after the
workspace root has been located with FileUpsearch: the click arguments and
the path values the code derives with pathlib (source basename and the
source directory's path relative to the project root).
-/
structure BuildConfig where
  projectDirectory : String
  source : String
  sourceBasename : String
  relativePathFromProject : String
  optimization : String
  platform : String
  linkerScript : String
  toolchain : String
  compiler : String

def toolchainDir (cfg : BuildConfig) : String :=
  cfg.projectDirectory ++ "/packages/" ++ cfg.toolchain

def buildDirectory (cfg : BuildConfig) : String :=
  cfg.projectDirectory ++ "/build"

def libraryDirectory (cfg : BuildConfig) : String :=
  cfg.projectDirectory ++ "/library"

/-- PLATFORM_GCC_ARGS_PATH (sammy.py line 410). -/
def platformGccArgsPath (cfg : BuildConfig) : String :=
  libraryDirectory cfg ++ "/lib" ++ cfg.platform ++ "/platform/gcc.txt"

def artifactsDirectory (cfg : BuildConfig) : String :=
  buildDirectory cfg ++ "/" ++ cfg.platform ++ "/" ++ cfg.relativePathFromProject

def artifactsName (cfg : BuildConfig) : String :=
  artifactsDirectory cfg ++ "/" ++ cfg.platform ++ "." ++ cfg.sourceBasename

/--
BUILD_COMMANDS (sammy.py lines 417-460): the ordered flag list of the
compile+link invocation, with the contents of the per-platform flags file
injected verbatim as one element.
-/
def buildCommands (cfg : BuildConfig) (platformArguments : String) : List String :=
  [toolchainDir cfg ++ "/bin/" ++ cfg.compiler,
   "-fexceptions",
   "--exceptions",
   "-ffunction-sections",
   "-fdata-sections",
   "-fdiagnostics-color",
   "-fno-rtti",
   "-fno-threadsafe-statics",
   "-fno-omit-frame-pointer",
   "-ffreestanding",
   "-Wno-main",
   "-Wall",
   "-Wformat=2",
   "-Wno-uninitialized",
   "-Wnull-dereference",
   "-Wold-style-cast",
   "-Woverloaded-virtual",
   "-Wsuggest-override",
   "-Wno-psabi",
   "-Wl,--gc-sections",
   "-Wl,--print-memory-usage",
   "-Wl,--print-memory-usage",
   "--specs=picolibcpp.specs",
   "--oslib=semihost",
   "--crt0=hosted",
   "-T " ++ libraryDirectory cfg ++ "/lib" ++ cfg.platform ++ "/platform/" ++ cfg.linkerScript,
   "-g -std=c++20",
   "-I " ++ libraryDirectory cfg,
   "-O" ++ cfg.optimization,
   "-D PLATFORM=" ++ cfg.platform,
   platformArguments,
   cfg.source ++ " -o " ++ artifactsName cfg ++ ".elf",
   "1> " ++ artifactsName cfg ++ ".size.percent 2> " ++ artifactsName cfg ++ ".log"]

/-- BUILD_COMMAND (sammy.py line 462). -/
def buildCommand (cfg : BuildConfig) (platformArguments : String) : String :=
  String.intercalate " " (buildCommands cfg platformArguments)

def generateBinary (cfg : BuildConfig) : String :=
  toolchainDir cfg ++ "/bin/arm-none-eabi-objcopy -O binary " ++
    artifactsName cfg ++ ".elf " ++ artifactsName cfg ++ ".bin"

def generateHex (cfg : BuildConfig) : String :=
  toolchainDir cfg ++ "/bin/arm-none-eabi-objcopy -O ihex " ++
    artifactsName cfg ++ ".elf " ++ artifactsName cfg ++ ".hex"

def generateDisasm (cfg : BuildConfig) : String :=
  toolchainDir cfg ++ "/bin/arm-none-eabi-objdump --disassemble --demangle " ++
    artifactsName cfg ++ ".elf > " ++ artifactsName cfg ++ ".S"

def generateDisasmS (cfg : BuildConfig) : String :=
  toolchainDir cfg ++ "/bin/arm-none-eabi-objdump " ++
    "--all-headers --source --disassemble --demangle " ++
    artifactsName cfg ++ ".elf > " ++ artifactsName cfg ++ ".lst"

def generateSize (cfg : BuildConfig) : String :=
  toolchainDir cfg ++ "/bin/arm-none-eabi-size " ++
    artifactsName cfg ++ ".elf > " ++ artifactsName cfg ++ ".size"

/--
The five artifact-generation steps of the build pipeline (sammy.py lines
493-512), in the order they appear inside the one try block.
-/
def artifactSteps (cfg : BuildConfig) : List Step :=
  [{ startMessage := "Generating: .bin  (binary) ",
     command := generateBinary cfg,
     errorMessage := "Failed to generate .bin file" },
   { startMessage := "            .hex  (intel HEX file) ",
     command := generateHex cfg,
     errorMessage := "Failed to generate .hex file" },
   { startMessage := "             .S    (disassembly) ",
     command := generateDisasm cfg,
     errorMessage := "Failed to generate .S file" },
   { startMessage := "            .lst  (disassembly with source code) ",
     command := generateDisasmS cfg,
     errorMessage := "Failed to generate .lst file" },
   { startMessage := "            .size (size information) ",
     command := generateSize cfg,
     errorMessage := "Failed to generate .size file" }]

inductive BuildFailure where
  | platformFlagsMissing
  | compileFailed
  | artifactStepFailed (message : String)
deriving DecidableEq

/--
Outcome of one build invocation: the failure, if any (the uncaught
FileNotFoundError from reading the absent flags file is the spec's
PlatformFlagsMissing), the command strings handed to the shell in order,
and the diagnostic lines printed.
-/
structure BuildOutcome where
  failure : Option BuildFailure
  executed : List String
  printed : List String
deriving DecidableEq

/--
build (sammy.py lines 384-524), after the workspace has been located.
`readText` is Path.read_text on the pre-build filesystem (none models the
uncaught FileNotFoundError when the file is absent); `readAfter` reads the
artifact files the compile and pipeline steps produced (the .log redirect
target and the size reports); `run` is the shell.  The flags file is read
at assembly time (line 415), before any command is executed; a compile
failure prints the assembled command and the captured log and returns; an
artifact-step failure prints FAILURE! and the step's message; on full
success the size reports and build log are printed.
-/
def buildAssembled (readAfter : String → String) (run : String → Nat)
    (cfg : BuildConfig) (platformArguments : String) : BuildOutcome :=
  match GenerateAndCheck run (buildCommand cfg platformArguments)
      "Failed to build application!" with
  | (compileCmd, some _) =>
    { failure := some BuildFailure.compileFailed,
      executed := [compileCmd],
      printed := ["Build command:\n" ++ buildCommand cfg platformArguments ++ "\n",
                  "Build Log Contents:\n",
                  readAfter (artifactsName cfg ++ ".log")] }
  | (compileCmd, none) =>
    match runPipeline run (artifactSteps cfg) with
    | (cmds, some err) =>
      { failure := some (BuildFailure.artifactStepFailed err),
        executed := compileCmd :: cmds,
        printed := ["FAILURE!", err] }
    | (cmds, none) =>
      { failure := none,
        executed := compileCmd :: cmds,
        printed := ["Section Memory Usage",
                    readAfter (artifactsName cfg ++ ".size"),
                    readAfter (artifactsName cfg ++ ".size.percent"),
                    "Build Log Contents:",
                    readAfter (artifactsName cfg ++ ".log")] }

def build (readText : String → Option String) (readAfter : String → String)
    (run : String → Nat) (cfg : BuildConfig) : BuildOutcome :=
  match readText (platformGccArgsPath cfg) with
  | none => { failure := some BuildFailure.platformFlagsMissing, executed := [], printed := [] }
  | some platformArguments => buildAssembled readAfter run cfg platformArguments

theorem build_eq_buildAssembled (readText : String → Option String)
    (readAfter : String → String) (run : String → Nat) (cfg : BuildConfig)
    (platformArguments : String)
    (hargs : readText (platformGccArgsPath cfg) = some platformArguments) :
    build readText readAfter run cfg = buildAssembled readAfter run cfg platformArguments := by
  unfold build
  rw [hargs]

/--
Claim C7: when the per-platform flags file library/lib<platform>/platform/
gcc.txt is absent, command assembly fails fast (the read_text raise is the
spec's PlatformFlagsMissing, never an empty flag set) and zero commands —
in particular zero compiler invocations — are handed to the shell.
-/
theorem build_missing_flags_fails_before_any_command
    (readText : String → Option String) (readAfter : String → String)
    (run : String → Nat) (cfg : BuildConfig)
    (habsent : readText (platformGccArgsPath cfg) = none) :
    build readText readAfter run cfg =
      { failure := some BuildFailure.platformFlagsMissing, executed := [], printed := [] } := by
  unfold build
  rw [habsent]

/--
Claim C9: when the compile+link stage exits nonzero, all five
artifact-generation steps are skipped — the only command handed to the
shell is the compile command — and the tool prints the fully assembled
build command line plus the captured compile log.
-/
theorem build_compile_failure_skips_artifacts_prints_diagnosis
    (readText : String → Option String) (readAfter : String → String)
    (run : String → Nat) (cfg : BuildConfig) (platformArguments : String)
    (hargs : readText (platformGccArgsPath cfg) = some platformArguments)
    (hfail : run (flattenNewlines (buildCommand cfg platformArguments)) ≠ 0) :
    build readText readAfter run cfg =
      { failure := some BuildFailure.compileFailed,
        executed := [flattenNewlines (buildCommand cfg platformArguments)],
        printed := ["Build command:\n" ++ buildCommand cfg platformArguments ++ "\n",
                    "Build Log Contents:\n",
                    readAfter (artifactsName cfg ++ ".log")] } := by
  rw [build_eq_buildAssembled readText readAfter run cfg platformArguments hargs]
  unfold buildAssembled GenerateAndCheck
  rw [if_neg hfail]

/--
Claim C10: every newline in an assembled command string is replaced by a
space before the command is handed to the shell: each command a pipeline
hands to the shell is the newline-flattening of its step's command and
contains no newline, and every command a build invocation executes —
including the compile command assembled from the multi-line flags file —
is newline-free, with the compile command being exactly the flattened
assembled build command.
-/
theorem executed_commands_are_newline_flattened
    (run : String → Nat) (steps : List Step)
    (readText : String → Option String) (readAfter : String → String)
    (cfg : BuildConfig) (platformArguments : String) :
    (∀ c ∈ (runPipeline run steps).1,
      (∃ s, s ∈ steps ∧ c = flattenNewlines s.command) ∧ ∀ ch ∈ c.data, ch ≠ '\n') ∧
    (readText (platformGccArgsPath cfg) = some platformArguments →
      (build readText readAfter run cfg).executed.head?
        = some (flattenNewlines (buildCommand cfg platformArguments)) ∧
      ∀ c ∈ (build readText readAfter run cfg).executed, ∀ ch ∈ c.data, ch ≠ '\n') := by
  constructor
  · intro c hc
    obtain ⟨s, hs, hcs⟩ := runPipeline_executed_mem run steps c hc
    exact ⟨⟨s, hs, hcs⟩, by rw [hcs]; exact flattenNewlines_no_newline s.command⟩
  · intro hargs
    rw [build_eq_buildAssembled readText readAfter run cfg platformArguments hargs]
    rcases hp : runPipeline run (artifactSteps cfg) with ⟨cmds, err⟩
    unfold buildAssembled GenerateAndCheck
    rw [hp]
    by_cases hr : run (flattenNewlines (buildCommand cfg platformArguments)) = 0
    · rw [if_pos hr]
      rcases err with _ | e
      all_goals refine ⟨rfl, fun c hc => ?_⟩
      all_goals simp only [List.mem_cons] at hc
      all_goals rcases hc with hh | ht
      · rw [hh]; exact flattenNewlines_no_newline (buildCommand cfg platformArguments)
      · obtain ⟨s, _, hcs⟩ := runPipeline_executed_mem run (artifactSteps cfg) c
          (by rw [hp]; exact ht)
        rw [hcs]; exact flattenNewlines_no_newline s.command
      · rw [hh]; exact flattenNewlines_no_newline (buildCommand cfg platformArguments)
      · obtain ⟨s, _, hcs⟩ := runPipeline_executed_mem run (artifactSteps cfg) c
          (by rw [hp]; exact ht)
        rw [hcs]; exact flattenNewlines_no_newline s.command
    · rw [if_neg hr]
      refine ⟨rfl, fun c hc => ?_⟩
      simp only [List.mem_singleton] at hc
      rw [hc]
      exact flattenNewlines_no_newline (buildCommand cfg platformArguments)

/-- The default build configuration of sammy.py (lines 373-383) in a
concrete project. -/
def cfgW : BuildConfig :=
  { projectDirectory := "/home/dev/proj", source := "main.cpp", sourceBasename := "main.cpp",
    relativePathFromProject := ".", optimization := "g", platform := "lpc40xx",
    linkerScript := "default.ld", toolchain := "gcc-arm-none-eabi-picolibc",
    compiler := "arm-none-eabi-g++" }

/-- A shell on which exactly the plain-disassembly command (artifact step 3)
exits nonzero. -/
def runFailDisasmW : String → Nat :=
  fun c => if c = flattenNewlines (generateDisasm cfgW) then 1 else 0

set_option maxRecDepth 8192 in
theorem runPipeline_first_failure_aborts_rest_witness :
    runPipeline runFailDisasmW (artifactSteps cfgW) =
      ([flattenNewlines (generateBinary cfgW), flattenNewlines (generateHex cfgW),
        flattenNewlines (generateDisasm cfgW)], some "Failed to generate .S file") := by
  have h := runPipeline_first_failure_aborts_rest runFailDisasmW
    [{ startMessage := "Generating: .bin  (binary) ",
       command := generateBinary cfgW,
       errorMessage := "Failed to generate .bin file" },
     { startMessage := "            .hex  (intel HEX file) ",
       command := generateHex cfgW,
       errorMessage := "Failed to generate .hex file" }]
    [{ startMessage := "            .lst  (disassembly with source code) ",
       command := generateDisasmS cfgW,
       errorMessage := "Failed to generate .lst file" },
     { startMessage := "            .size (size information) ",
       command := generateSize cfgW,
       errorMessage := "Failed to generate .size file" }]
    { startMessage := "             .S    (disassembly) ",
      command := generateDisasm cfgW,
      errorMessage := "Failed to generate .S file" }
    ?_ ?_
  · simpa [artifactSteps] using h
  · intro p hp
    rcases List.mem_cons.mp hp with rfl | hp2
    · decide
    · rcases List.mem_singleton.mp hp2 with rfl
      decide
  · decide

def readTextNoneW : String → Option String := fun _ => none

def readAfterW : String → String := fun _ => ""

def runZeroW : String → Nat := fun _ => 0

theorem build_missing_flags_fails_before_any_command_witness :
    build readTextNoneW readAfterW runZeroW cfgW =
      { failure := some BuildFailure.platformFlagsMissing, executed := [], printed := [] } :=
  build_missing_flags_fails_before_any_command readTextNoneW readAfterW runZeroW cfgW rfl

/-- Multi-line contents of a per-platform flags file. -/
def platformArgsW : String := "-mcpu=cortex-m4\n-mfloat-abi=hard\n-mthumb"

/-- A filesystem on which only the flags file of cfgW exists. -/
def readTextFlagsW : String → Option String :=
  fun p => if p = platformGccArgsPath cfgW then some platformArgsW else none

/-- A shell on which every command exits nonzero. -/
def runOneW : String → Nat := fun _ => 1

/-- The captured compile log of the failing build. -/
def readAfterLogW : String → String :=
  fun p => if p = artifactsName cfgW ++ ".log"
    then "main.cpp:1:1: error: expected unqualified-id" else ""

theorem build_compile_failure_skips_artifacts_prints_diagnosis_witness :
    build readTextFlagsW readAfterLogW runOneW cfgW =
      { failure := some BuildFailure.compileFailed,
        executed := [flattenNewlines (buildCommand cfgW platformArgsW)],
        printed := ["Build command:\n" ++ buildCommand cfgW platformArgsW ++ "\n",
                    "Build Log Contents:\n",
                    readAfterLogW (artifactsName cfgW ++ ".log")] } :=
  build_compile_failure_skips_artifacts_prints_diagnosis readTextFlagsW readAfterLogW
    runOneW cfgW platformArgsW (by decide) (by decide)

theorem executed_commands_are_newline_flattened_witness :
    (build readTextFlagsW readAfterLogW runOneW cfgW).executed.head?
      = some (flattenNewlines (buildCommand cfgW platformArgsW)) ∧
    (∀ c ∈ (build readTextFlagsW readAfterLogW runOneW cfgW).executed,
      ∀ ch ∈ c.data, ch ≠ '\n') := by
  have h := executed_commands_are_newline_flattened runOneW (artifactSteps cfgW)
    readTextFlagsW readAfterLogW cfgW platformArgsW
  exact ⟨(h.2 (by decide)).1, (h.2 (by decide)).2⟩

end Sammy
